import Mathlib

/-!
# RTCRtpSender: a shallow embedding of `rtcrtpsender.go`

Go channels are modelled as bounded FIFO buffers living in a store and are
named by references, so that the two fields of a Track that name one channel
(`sampleInput`/`Samples`, `rawInput`/`RawRTP`, `rtcpInput`/`RTCPPackets`)
really alias.  The DTLS transport, the SRTP/SRTCP sessions, the packetizer
and the RTCP decoder are external collaborators: they appear as data that
fixes what each of their calls returns.
-/

namespace Webrtc

/-! ## Go channels -/

/-- Run-time panics the channel operations of the Go runtime can raise. -/
inductive GoPanic where
  | closeOfNilChannel
  | closeOfClosedChannel
  | sendOnClosedChannel
  deriving DecidableEq, Repr

/-- State of one Go channel made by `make(chan T, cap)`. -/
structure Chan (α : Type) where
  buf : List α
  cap : Nat
  closed : Bool
  deriving DecidableEq, Repr

/-- Channel value held in a variable or field: `none` is the nil channel. -/
abbrev Ref := Option Nat

/-- All channels of one element type that were ever made. -/
abbrev Store (α : Type) := List (Chan α)

/-- Channel a reference names, if any. -/
def Store.lookup {α : Type} (s : Store α) (r : Ref) : Option (Chan α) :=
  match r with
  | none => none
  | some i => s.get? i

/-- Replace the state of the channel a reference names. -/
def Store.put {α : Type} (s : Store α) (r : Ref) (c : Chan α) : Store α :=
  match r with
  | none => s
  | some i => s.set i c

/-- Go `make(chan T, cap)`: a fresh, open, empty channel. -/
def Store.make {α : Type} (s : Store α) (cap : Nat) : Store α × Ref :=
  (s ++ [{ buf := [], cap := cap, closed := false }], some s.length)

/-- Go `close(ch)`: panics on a nil or an already closed channel and then
leaves the store as it was. -/
def Store.close {α : Type} (s : Store α) (r : Ref) : Store α × Option GoPanic :=
  match s.lookup r with
  | none => (s, some GoPanic.closeOfNilChannel)
  | some c =>
    if c.closed then (s, some GoPanic.closeOfClosedChannel)
    else (s.put r { c with closed := true }, none)

/-- Result of the receive `v, ok := <-ch`. -/
inductive Recv (α : Type) where
  | item (v : α)
  | done
  | blocks
  deriving DecidableEq, Repr

/-- Go `v, ok := <-ch`: the oldest buffered item with `ok = true`; on a closed
and empty channel `ok = false` at once; otherwise the receiver blocks. -/
def Store.recv {α : Type} (s : Store α) (r : Ref) : Store α × Recv α :=
  match s.lookup r with
  | none => (s, Recv.blocks)
  | some c =>
    match c.buf with
    | v :: rest => (s.put r { c with buf := rest }, Recv.item v)
    | [] => if c.closed then (s, Recv.done) else (s, Recv.blocks)

/-- Result of a send statement. -/
inductive SendRes where
  | sent
  | notReady
  | crashed (p : GoPanic)
  deriving DecidableEq, Repr

/-- Go send `ch <- v` as far as it can proceed without a waiting receiver:
panics on a closed channel, enqueues when the buffer has room, and is not
ready (a plain send blocks, a `select` takes its `default`) otherwise. -/
def Store.send {α : Type} (s : Store α) (r : Ref) (v : α) : Store α × SendRes :=
  match s.lookup r with
  | none => (s, SendRes.notReady)
  | some c =>
    if c.closed then (s, SendRes.crashed GoPanic.sendOnClosedChannel)
    else if c.buf.length < c.cap then (s.put r { c with buf := c.buf ++ [v] }, SendRes.sent)
    else (s, SendRes.notReady)

/-! ## Data model -/

/-- Error value returned by an external call. -/
structure Err where
  code : Nat
  deriving DecidableEq, Repr

/-- Header of `rtp.Packet`. -/
structure Header where
  Marker : Bool
  PayloadType : Nat
  SequenceNumber : Nat
  Timestamp : Nat
  SSRC : Nat
  deriving DecidableEq, Repr

/-- The `rtp.Packet` an item of the raw queue points to. -/
structure Packet where
  Header : Header
  Payload : List Nat
  deriving DecidableEq, Repr

/-- Go `media.RTCSample`. -/
structure RTCSample where
  Data : List Nat
  Samples : Nat
  deriving DecidableEq, Repr

/-- Decoded `rtcp.Packet`. -/
structure RtcpPacket where
  kind : Nat
  body : List Nat
  deriving DecidableEq, Repr

/-- Go `RTCRtpCodec`, the fields the sender reads. -/
structure RTCRtpCodec where
  Payloader : Nat
  ClockRate : Nat
  deriving DecidableEq, Repr

/-- Go `RTCTrack`, the fields the sender reads and writes. -/
structure RTCTrack where
  isRawRTP : Bool
  PayloadType : Nat
  Ssrc : Nat
  Codec : RTCRtpCodec
  sampleInput : Ref
  rawInput : Ref
  rtcpInput : Ref
  Samples : Ref
  RawRTP : Ref
  RTCPPackets : Ref
  deriving DecidableEq, Repr

/-- Go `RTCRtpSender`; `transport` names a transport of the world. -/
structure RTCRtpSender where
  Track : RTCTrack
  transport : Nat
  deriving DecidableEq, Repr

/-- Go `RTCRtpSendParameters`; `Send` never reads it. -/
structure RTCRtpSendParameters where
  encodings : List Nat
  deriving DecidableEq, Repr

/-! ## External collaborators -/

/-- SRTP write stream: `writeErr` is what `WriteRTP` returns as its error. -/
structure WriteStream where
  writeErr : Option Err
  deriving DecidableEq, Repr

/-- SRTP session: what `OpenWriteStream` returns. -/
structure SRTPSession where
  OpenWriteStream : Except Err WriteStream

/-- SRTCP read stream: the results of its successive `Read` calls, each the
error or the bytes `rtcpBuf[:i]`; with none left a `Read` blocks. -/
structure ReadStream where
  pending : List (Except Err (List Nat))

/-- SRTCP session: what `OpenReadStream(ssrc)` returns. -/
structure SRTCPSession where
  OpenReadStream : Nat → Except Err ReadStream

/-- State of one `RTCDtlsTransport`.  `srtp k` is what the call number `k` of
`getSRTPSession` returns, `srtpCalls` counts those calls, `offered` lists the
packets `WriteRTP` was invoked with and `wire` those it wrote. -/
structure RTCDtlsTransport where
  srtp : Nat → Except Err SRTPSession
  srtpCalls : Nat
  offered : List Packet
  wire : List Packet
  srtcp : Except Err SRTCPSession

/-- Write stream the call number `k` of `getSRTPSession` leads to: none when
that call or the `OpenWriteStream` after it fails. -/
def RTCDtlsTransport.writeStreamAt (tr : RTCDtlsTransport) (k : Nat) : Option WriteStream :=
  match tr.srtp k with
  | Except.error _ => none
  | Except.ok srtpSession =>
    match srtpSession.OpenWriteStream with
    | Except.error _ => none
    | Except.ok writeStream => some writeStream

/-- Whether session and write stream are both obtained at call number `k`. -/
def RTCDtlsTransport.reachesWrite (tr : RTCDtlsTransport) (k : Nat) : Bool :=
  (tr.writeStreamAt k).isSome

/-- Whether session, write stream and write all succeed at call number `k`. -/
def RTCDtlsTransport.writes (tr : RTCDtlsTransport) (k : Nat) : Bool :=
  match tr.writeStreamAt k with
  | some writeStream => writeStream.writeErr.isNone
  | none => false

/-- Lines `pcLog.Warnf` writes. -/
inductive LogLine where
  | failedSRTCPSession (e : Err) (ssrc : Nat)
  | failedRTCPReadStream (e : Err) (ssrc : Nat)
  | failedRead (e : Err) (ssrc : Nat)
  | failedUnmarshal (e : Err)
  | sendRTPSession (e : Err)
  | sendRTPWriteStream (e : Err)
  | sendRTPWrite (e : Err)
  deriving DecidableEq, Repr

/-- The `rtp` packetizer: `NewPacketizer mtu payloadType ssrc payloader
sequencer clockRate` and `Packetize state data samples`. -/
structure PacketizerApi where
  State : Type
  NewRandomSequencer : Nat
  NewPacketizer : Nat → Nat → Nat → Nat → Nat → Nat → State
  Packetize : State → List Nat → Nat → List Packet × State

/-- Goroutines a `go` statement of this file can start. -/
inductive Goroutine where
  | handleRawRTP (r : RTCRtpSender) (rtpPackets : Ref)
  | handleSampleRTP (r : RTCRtpSender) (rtpPackets : Ref)
  | handleRTCP (r : RTCRtpSender) (transport : Nat) (rtcpPackets : Ref)
  deriving DecidableEq, Repr

/-- Everything the sender's code can read or change. -/
structure World where
  samples : Store RTCSample
  raws : Store Packet
  rtcps : Store RtcpPacket
  transports : Nat → RTCDtlsTransport
  log : List LogLine
  goroutines : List Goroutine

/-- How a call or a worker ends. -/
inductive Exit where
  | returned
  | blocked
  | crashed (p : GoPanic)
  | outOfFuel
  deriving DecidableEq, Repr

/-! ## The sender -/

/-- Go `const rtpOutboundMTU = 1400`. -/
def rtpOutboundMTU : Nat := 1400

/-- Go `pcLog.Warnf`. -/
def World.warn (w : World) (l : LogLine) : World :=
  { w with log := w.log ++ [l] }

/-- Go `NewRTCRtpSender`. -/
def NewRTCRtpSender (w : World) (track : RTCTrack) (transport : Nat) :
    World × RTCRtpSender × Exit :=
  let (samples1, sampleCh) := w.samples.make 15
  let (raws1, rawCh) := w.raws.make 15
  let (rtcps1, rtcpCh) := w.rtcps.make 15
  let track1 : RTCTrack :=
    { track with sampleInput := sampleCh, rawInput := rawCh, rtcpInput := rtcpCh }
  let track2 : RTCTrack :=
    { track1 with
      Samples := track1.sampleInput, RawRTP := track1.rawInput,
      RTCPPackets := track1.rtcpInput }
  let r : RTCRtpSender := { Track := track2, transport := transport }
  let w1 : World := { w with samples := samples1, raws := raws1, rtcps := rtcps1 }
  if r.Track.isRawRTP then
    match w1.samples.close r.Track.Samples with
    | (s, none) => ({ w1 with samples := s }, r, Exit.returned)
    | (s, some p) => ({ w1 with samples := s }, r, Exit.crashed p)
  else
    match w1.raws.close r.Track.RawRTP with
    | (s, none) => ({ w1 with raws := s }, r, Exit.returned)
    | (s, some p) => ({ w1 with raws := s }, r, Exit.crashed p)

/-- Go `RTCRtpSender.Send`: the `go` statements append to the goroutines. -/
def Send (w : World) (r : RTCRtpSender) (_parameters : RTCRtpSendParameters) : World :=
  let w1 : World :=
    if r.Track.isRawRTP then
      { w with goroutines := w.goroutines ++ [Goroutine.handleRawRTP r r.Track.rawInput] }
    else
      { w with goroutines := w.goroutines ++ [Goroutine.handleSampleRTP r r.Track.sampleInput] }
  { w1 with goroutines := w1.goroutines ++ [Goroutine.handleRTCP r r.transport r.Track.rtcpInput] }

/-- Go `RTCRtpSender.Stop`. -/
def Stop (w : World) (r : RTCRtpSender) : World × Exit :=
  if r.Track.isRawRTP then
    match w.raws.close r.Track.RawRTP with
    | (s, none) => ({ w with raws := s }, Exit.returned)
    | (s, some p) => ({ w with raws := s }, Exit.crashed p)
  else
    match w.samples.close r.Track.Samples with
    | (s, none) => ({ w with samples := s }, Exit.returned)
    | (s, some p) => ({ w with samples := s }, Exit.crashed p)

/-- Replace the state of one transport. -/
def World.setTransport (w : World) (t : Nat) (tr : RTCDtlsTransport) : World :=
  { w with transports := Function.update w.transports t tr }

/-- Go `RTCRtpSender.sendRTP`. -/
def sendRTP (w : World) (r : RTCRtpSender) (packet : Packet) : World :=
  let tr := w.transports r.transport
  let w1 := w.setTransport r.transport { tr with srtpCalls := tr.srtpCalls + 1 }
  match tr.srtp tr.srtpCalls with
  | Except.error e => w1.warn (LogLine.sendRTPSession e)
  | Except.ok srtpSession =>
    match srtpSession.OpenWriteStream with
    | Except.error e => w1.warn (LogLine.sendRTPWriteStream e)
    | Except.ok writeStream =>
      let tr1 := w1.transports r.transport
      let w2 := w1.setTransport r.transport { tr1 with offered := tr1.offered ++ [packet] }
      match writeStream.writeErr with
      | some e => w2.warn (LogLine.sendRTPWrite e)
      | none =>
        let tr2 := w2.transports r.transport
        w2.setTransport r.transport { tr2 with wire := tr2.wire ++ [packet] }

/-- Go `RTCRtpSender.handleRawRTP`; one unit of fuel per turn of the loop. -/
def handleRawRTP (fuel : Nat) (w : World) (r : RTCRtpSender) (rtpPackets : Ref) :
    World × Exit :=
  match fuel with
  | 0 => (w, Exit.outOfFuel)
  | fuel + 1 =>
    match w.raws.recv rtpPackets with
    | (_, Recv.blocks) => (w, Exit.blocked)
    | (_, Recv.done) => (w, Exit.returned)
    | (raws1, Recv.item p) =>
      handleRawRTP fuel (sendRTP { w with raws := raws1 } r p) r rtpPackets

/-- The `for _, p := range packets` loop of `handleSampleRTP`. -/
def sendAll (w : World) (r : RTCRtpSender) (packets : List Packet) : World :=
  match packets with
  | [] => w
  | p :: rest => sendAll (sendRTP w r p) r rest

/-- The `for` loop of `handleSampleRTP`, with the packetizer's state. -/
def handleSampleRTPLoop (api : PacketizerApi) (fuel : Nat) (w : World) (r : RTCRtpSender)
    (rtpPackets : Ref) (packetizer : api.State) : World × Exit :=
  match fuel with
  | 0 => (w, Exit.outOfFuel)
  | fuel + 1 =>
    match w.samples.recv rtpPackets with
    | (_, Recv.blocks) => (w, Exit.blocked)
    | (_, Recv.done) => (w, Exit.returned)
    | (samples1, Recv.item sample) =>
      let (packets, packetizer1) := api.Packetize packetizer sample.Data sample.Samples
      handleSampleRTPLoop api fuel (sendAll { w with samples := samples1 } r packets) r
        rtpPackets packetizer1

/-- Go `RTCRtpSender.handleSampleRTP`. -/
def handleSampleRTP (api : PacketizerApi) (fuel : Nat) (w : World) (r : RTCRtpSender)
    (rtpPackets : Ref) : World × Exit :=
  let packetizer := api.NewPacketizer rtpOutboundMTU r.Track.PayloadType r.Track.Ssrc
    r.Track.Codec.Payloader api.NewRandomSequencer r.Track.Codec.ClockRate
  handleSampleRTPLoop api fuel w r rtpPackets packetizer

/-- Go `readStream.Read(rtcpBuf)` into the fresh buffer of `receiveMTU` bytes:
the next pending result, an error or the bytes `rtcpBuf[:i]`. -/
def ReadStream.Read (s : ReadStream) : Option (Except Err (List Nat) × ReadStream) :=
  match s.pending with
  | [] => none
  | x :: rest => some (x, { pending := rest })

/-- The `for` loop of `handleRTCP`; `Unmarshal` is `rtcp.Unmarshal`. -/
def handleRTCPLoop (Unmarshal : List Nat → Except Err RtcpPacket) (fuel : Nat) (w : World)
    (r : RTCRtpSender) (readStream : ReadStream) (rtcpPackets : Ref) : World × Exit :=
  match fuel with
  | 0 => (w, Exit.outOfFuel)
  | fuel + 1 =>
    match readStream.Read with
    | none => (w, Exit.blocked)
    | some (Except.error e, _) => (w.warn (LogLine.failedRead e r.Track.Ssrc), Exit.returned)
    | some (Except.ok bytes, readStream1) =>
      match Unmarshal bytes with
      | Except.error e =>
        handleRTCPLoop Unmarshal fuel (w.warn (LogLine.failedUnmarshal e)) r readStream1
          rtcpPackets
      | Except.ok rtcpPacket =>
        match w.rtcps.send rtcpPackets rtcpPacket with
        | (_, SendRes.crashed p) => (w, Exit.crashed p)
        | (_, SendRes.notReady) =>
          handleRTCPLoop Unmarshal fuel w r readStream1 rtcpPackets
        | (rtcps1, SendRes.sent) =>
          handleRTCPLoop Unmarshal fuel { w with rtcps := rtcps1 } r readStream1 rtcpPackets

/-- Go `RTCRtpSender.handleRTCP`. -/
def handleRTCP (Unmarshal : List Nat → Except Err RtcpPacket) (fuel : Nat) (w : World)
    (r : RTCRtpSender) (transport : Nat) (rtcpPackets : Ref) : World × Exit :=
  match (w.transports transport).srtcp with
  | Except.error e => (w.warn (LogLine.failedSRTCPSession e r.Track.Ssrc), Exit.returned)
  | Except.ok srtcpSession =>
    match srtcpSession.OpenReadStream r.Track.Ssrc with
    | Except.error e => (w.warn (LogLine.failedRTCPReadStream e r.Track.Ssrc), Exit.returned)
    | Except.ok readStream => handleRTCPLoop Unmarshal fuel w r readStream rtcpPackets

/-- What a started goroutine runs. -/
def Goroutine.run (api : PacketizerApi) (Unmarshal : List Nat → Except Err RtcpPacket)
    (fuel : Nat) (w : World) (g : Goroutine) : World × Exit :=
  match g with
  | Goroutine.handleRawRTP r ch => Webrtc.handleRawRTP fuel w r ch
  | Goroutine.handleSampleRTP r ch => Webrtc.handleSampleRTP api fuel w r ch
  | Goroutine.handleRTCP r t ch => Webrtc.handleRTCP Unmarshal fuel w r t ch

/-- Packets one packetizer returns for the samples of a queue, taken in queue
order with the packetizer's state carried from each sample to the next. -/
def packetizeAll (api : PacketizerApi) (packetizer : api.State) :
    List RTCSample → List Packet
  | [] => []
  | sample :: rest =>
    (api.Packetize packetizer sample.Data sample.Samples).1 ++
      packetizeAll api (api.Packetize packetizer sample.Data sample.Samples).2 rest

/-! ## Sample data -/

/-- Transport whose even send calls succeed, whose calls 1, 5, 9, ... fail to
get a session and whose calls 3, 7, 11, ... fail to write; its SRTCP session
delivers for every flow a malformed datagram, a well-formed one and a read
error. -/
def sampleTransport : RTCDtlsTransport :=
  { srtp := fun k =>
      if k % 2 = 0 then Except.ok { OpenWriteStream := Except.ok { writeErr := none } }
      else if k % 4 = 1 then Except.error { code := 1 }
      else Except.ok { OpenWriteStream := Except.ok { writeErr := some { code := 3 } } },
    srtpCalls := 0,
    offered := [],
    wire := [],
    srtcp := Except.ok
      { OpenReadStream := fun _ =>
          Except.ok
            { pending := [Except.ok [0], Except.ok [201, 5], Except.error { code := 9 }] } } }

/-- World with no channel yet. -/
def sampleWorld : World :=
  { samples := [], raws := [], rtcps := [], transports := fun _ => sampleTransport,
    log := [], goroutines := [] }

/-- Track in raw mode, not yet bound to a sender. -/
def rawTrack : RTCTrack :=
  { isRawRTP := true, PayloadType := 96, Ssrc := 7,
    Codec := { Payloader := 0, ClockRate := 90000 },
    sampleInput := none, rawInput := none, rtcpInput := none,
    Samples := none, RawRTP := none, RTCPPackets := none }

/-- Track in sample mode, not yet bound to a sender. -/
def sampleTrack : RTCTrack := { rawTrack with isRawRTP := false }

/-- Packet with the given sequence number and a one-byte payload. -/
def samplePacket (seq : Nat) : Packet :=
  { Header :=
      { Marker := false, PayloadType := 96, SequenceNumber := seq, Timestamp := 0, SSRC := 7 },
    Payload := [seq] }

/-- Packetizer that cuts the data into one-byte packets and numbers them. -/
def samplePacketizer : PacketizerApi :=
  { State := Nat,
    NewRandomSequencer := 100,
    NewPacketizer := fun _ _ _ _ sequencer _ => sequencer,
    Packetize := fun next data _ =>
      ((List.range data.length).map (fun i => samplePacket (next + i)), next + data.length) }

/-- Decoder that rejects datagrams not starting with a byte of 200 or more. -/
def sampleUnmarshal (bytes : List Nat) : Except Err RtcpPacket :=
  match bytes with
  | [] => Except.error { code := 4 }
  | kind :: body =>
    if 200 ≤ kind then Except.ok { kind := kind, body := body }
    else Except.error { code := 5 }

/-- Closed raw queue holding three packets. -/
def closedRawQueue : Chan Packet :=
  { buf := [samplePacket 1, samplePacket 2, samplePacket 3], cap := 15, closed := true }

/-- Closed sample queue holding a two-byte, an empty and a one-byte sample. -/
def closedSampleQueue : Chan RTCSample :=
  { buf := [{ Data := [10, 11], Samples := 960 }, { Data := [], Samples := 960 },
      { Data := [12], Samples := 960 }],
    cap := 15, closed := true }

/-- Sender bound to the sample-mode track in the sample world. -/
def sampleSender : RTCRtpSender := (NewRTCRtpSender sampleWorld sampleTrack 0).2.1

/-- Sender bound to the raw-mode track in the sample world. -/
def rawSender : RTCRtpSender := (NewRTCRtpSender sampleWorld rawTrack 0).2.1

/-- World right after binding the raw-mode track. -/
def rawWorld : World := (NewRTCRtpSender sampleWorld rawTrack 0).1

/-- Sixteen well-formed feedback datagrams. -/
def floodDatagrams : List (List Nat) := (List.range 16).map (fun i => [200, i])

/-- The packets the sixteen datagrams decode to. -/
def floodPackets : List RtcpPacket :=
  (List.range 16).map (fun i => { kind := 200, body := [i] })

/-- Transport whose SRTCP read stream delivers the sixteen datagrams and then
fails to read. -/
def floodTransport : RTCDtlsTransport :=
  { sampleTransport with
    srtcp := Except.ok
      { OpenReadStream := fun _ =>
          Except.ok
            { pending := floodDatagrams.map Except.ok ++ [Except.error { code := 9 }] } } }

/-- World right after binding the raw-mode track, over the flooding transport. -/
def floodWorld : World := { rawWorld with transports := fun _ => floodTransport }

/-! ## Channel lemmas -/

theorem Store.lookup_make {α : Type} (s : Store α) (cap : Nat) :
    (s.make cap).1.lookup (s.make cap).2 = some { buf := [], cap := cap, closed := false } := by
  simp [Store.make, Store.lookup]

theorem Store.lookup_put {α : Type} (s : Store α) (r : Ref) (c d : Chan α)
    (h : s.lookup r = some c) : (s.put r d).lookup r = some d := by
  cases r with
  | none => simp [Store.lookup] at h
  | some i =>
    simp only [Store.lookup, List.get?_eq_getElem?] at h
    have hi : i < s.length := by
      by_contra hc
      rw [List.getElem?_eq_none (by omega)] at h
      cases h
    simp [Store.lookup, Store.put, List.getElem?_set, hi]

theorem Store.put_put {α : Type} (s : Store α) (r : Ref) (c d : Chan α) :
    (s.put r c).put r d = s.put r d := by
  cases r with
  | none => rfl
  | some i => simp [Store.put, List.set_set]

theorem Store.close_open {α : Type} (s : Store α) (r : Ref) (c : Chan α)
    (h : s.lookup r = some c) (ho : c.closed = false) :
    s.close r = (s.put r { c with closed := true }, none) := by
  simp [Store.close, h, ho]

theorem Store.close_closed {α : Type} (s : Store α) (r : Ref) (c : Chan α)
    (h : s.lookup r = some c) (hc : c.closed = true) :
    s.close r = (s, some GoPanic.closeOfClosedChannel) := by
  simp [Store.close, h, hc]

theorem Store.recv_item {α : Type} (s : Store α) (r : Ref) (c : Chan α) (v : α) (rest : List α)
    (h : s.lookup r = some c) (hb : c.buf = v :: rest) :
    s.recv r = (s.put r { c with buf := rest }, Recv.item v) := by
  simp [Store.recv, h, hb]

theorem Store.recv_done {α : Type} (s : Store α) (r : Ref) (c : Chan α)
    (h : s.lookup r = some c) (hb : c.buf = []) (hc : c.closed = true) :
    s.recv r = (s, Recv.done) := by
  simp [Store.recv, h, hb, hc]

/-! ## Construction -/

theorem NewRTCRtpSender_raw (w : World) (track : RTCTrack) (transport : Nat)
    (h : track.isRawRTP = true) :
    NewRTCRtpSender w track transport =
      ({ w with
          samples := w.samples ++ [{ buf := [], cap := 15, closed := true }],
          raws := w.raws ++ [{ buf := [], cap := 15, closed := false }],
          rtcps := w.rtcps ++ [{ buf := [], cap := 15, closed := false }] },
       { Track := { track with
            sampleInput := some w.samples.length, rawInput := some w.raws.length,
            rtcpInput := some w.rtcps.length, Samples := some w.samples.length,
            RawRTP := some w.raws.length, RTCPPackets := some w.rtcps.length },
         transport := transport },
       Exit.returned) := by
  simp [NewRTCRtpSender, Store.make, Store.close, Store.lookup, Store.put, h]

theorem NewRTCRtpSender_sample (w : World) (track : RTCTrack) (transport : Nat)
    (h : track.isRawRTP = false) :
    NewRTCRtpSender w track transport =
      ({ w with
          samples := w.samples ++ [{ buf := [], cap := 15, closed := false }],
          raws := w.raws ++ [{ buf := [], cap := 15, closed := true }],
          rtcps := w.rtcps ++ [{ buf := [], cap := 15, closed := false }] },
       { Track := { track with
            sampleInput := some w.samples.length, rawInput := some w.raws.length,
            rtcpInput := some w.rtcps.length, Samples := some w.samples.length,
            RawRTP := some w.raws.length, RTCPPackets := some w.rtcps.length },
         transport := transport },
       Exit.returned) := by
  simp [NewRTCRtpSender, Store.make, Store.close, Store.lookup, Store.put, h]

/-- C1: in the state `NewRTCRtpSender` returns, exactly one of the two
MediaQueues is open, the raw queue if and only if the Track is in raw mode and
the sample queue otherwise; the other queue is closed and empty, and a receive
on it reports end-of-stream at once and does not block. -/
theorem newRTCRtpSender_exactly_one_queue_open (w : World) (track : RTCTrack)
    (transport : Nat) :
    ∃ cr cs,
      (NewRTCRtpSender w track transport).2.2 = Exit.returned ∧
      (NewRTCRtpSender w track transport).2.1.Track.isRawRTP = track.isRawRTP ∧
      (NewRTCRtpSender w track transport).2.1.Track.RawRTP =
        (NewRTCRtpSender w track transport).2.1.Track.rawInput ∧
      (NewRTCRtpSender w track transport).2.1.Track.Samples =
        (NewRTCRtpSender w track transport).2.1.Track.sampleInput ∧
      (NewRTCRtpSender w track transport).1.raws.lookup
        (NewRTCRtpSender w track transport).2.1.Track.rawInput = some cr ∧
      (NewRTCRtpSender w track transport).1.samples.lookup
        (NewRTCRtpSender w track transport).2.1.Track.sampleInput = some cs ∧
      (cr.closed = false ↔ track.isRawRTP = true) ∧
      (cs.closed = false ↔ track.isRawRTP = false) ∧
      cr.closed ≠ cs.closed ∧
      (if track.isRawRTP = true then
        cs.buf = [] ∧
        (NewRTCRtpSender w track transport).1.samples.recv
          (NewRTCRtpSender w track transport).2.1.Track.sampleInput =
            ((NewRTCRtpSender w track transport).1.samples, Recv.done)
      else
        cr.buf = [] ∧
        (NewRTCRtpSender w track transport).1.raws.recv
          (NewRTCRtpSender w track transport).2.1.Track.rawInput =
            ((NewRTCRtpSender w track transport).1.raws, Recv.done)) := by
  cases h : track.isRawRTP with
  | true =>
    rw [NewRTCRtpSender_raw w track transport h]
    refine ⟨{ buf := [], cap := 15, closed := false }, { buf := [], cap := 15, closed := true },
      ?_⟩
    simp [Store.lookup, Store.recv, h]
  | false =>
    rw [NewRTCRtpSender_sample w track transport h]
    refine ⟨{ buf := [], cap := 15, closed := true }, { buf := [], cap := 15, closed := false },
      ?_⟩
    simp [Store.lookup, Store.recv, h]

/-- C2: one call of `Send` starts exactly two goroutines: first the one
OutboundWorker, `handleRawRTP` on the raw queue when the Track is in raw mode
and `handleSampleRTP` on the sample queue otherwise, then the one
InboundFeedbackWorker, `handleRTCP` on the sender's transport and the
FeedbackQueue; nothing else of the world changes. -/
theorem send_starts_two_workers (w : World) (r : RTCRtpSender)
    (parameters : RTCRtpSendParameters) :
    (Send w r parameters).goroutines =
        w.goroutines ++
          [(if r.Track.isRawRTP = true then Goroutine.handleRawRTP r r.Track.rawInput
            else Goroutine.handleSampleRTP r r.Track.sampleInput),
           Goroutine.handleRTCP r r.transport r.Track.rtcpInput] ∧
      (Send w r parameters).goroutines.length = w.goroutines.length + 2 ∧
      (Send w r parameters).raws = w.raws ∧
      (Send w r parameters).samples = w.samples ∧
      (Send w r parameters).rtcps = w.rtcps ∧
      (Send w r parameters).log = w.log ∧
      ∀ (api : PacketizerApi) (Unmarshal : List Nat → Except Err RtcpPacket) (fuel : Nat)
        (v : World),
        Goroutine.run api Unmarshal fuel v
            (if r.Track.isRawRTP = true then Goroutine.handleRawRTP r r.Track.rawInput
              else Goroutine.handleSampleRTP r r.Track.sampleInput) =
          (if r.Track.isRawRTP = true then handleRawRTP fuel v r r.Track.rawInput
            else handleSampleRTP api fuel v r r.Track.sampleInput) ∧
        Goroutine.run api Unmarshal fuel v
            (Goroutine.handleRTCP r r.transport r.Track.rtcpInput) =
          handleRTCP Unmarshal fuel v r r.transport r.Track.rtcpInput := by
  cases h : r.Track.isRawRTP <;> simp [Send, h, Goroutine.run]

/-- C3: for a Sender obtained from `NewRTCRtpSender`, in any later world in
which the queue matching the Track's mode is still open, `Stop` returns and
leaves that queue closed with the items it held, in their order; from then on
every send into it, through the public field or the internal one, is rejected
with a panic and changes nothing. -/
theorem stop_closes_active_queue (w0 w : World) (track : RTCTrack) (transport : Nat)
    (cr : Chan Packet) (cs : Chan RTCSample)
    (hraw : track.isRawRTP = true →
      w.raws.lookup (NewRTCRtpSender w0 track transport).2.1.Track.rawInput = some cr ∧
        cr.closed = false)
    (hsample : track.isRawRTP = false →
      w.samples.lookup (NewRTCRtpSender w0 track transport).2.1.Track.sampleInput = some cs ∧
        cs.closed = false) :
    (Stop w (NewRTCRtpSender w0 track transport).2.1).2 = Exit.returned ∧
      (if track.isRawRTP = true then
        (Stop w (NewRTCRtpSender w0 track transport).2.1).1.raws.lookup
            (NewRTCRtpSender w0 track transport).2.1.Track.rawInput =
          some { buf := cr.buf, cap := cr.cap, closed := true } ∧
        (Stop w (NewRTCRtpSender w0 track transport).2.1).1.samples = w.samples ∧
        ∀ v : Packet,
          (Stop w (NewRTCRtpSender w0 track transport).2.1).1.raws.send
              (NewRTCRtpSender w0 track transport).2.1.Track.RawRTP v =
            ((Stop w (NewRTCRtpSender w0 track transport).2.1).1.raws,
              SendRes.crashed GoPanic.sendOnClosedChannel) ∧
          (Stop w (NewRTCRtpSender w0 track transport).2.1).1.raws.send
              (NewRTCRtpSender w0 track transport).2.1.Track.rawInput v =
            ((Stop w (NewRTCRtpSender w0 track transport).2.1).1.raws,
              SendRes.crashed GoPanic.sendOnClosedChannel)
      else
        (Stop w (NewRTCRtpSender w0 track transport).2.1).1.samples.lookup
            (NewRTCRtpSender w0 track transport).2.1.Track.sampleInput =
          some { buf := cs.buf, cap := cs.cap, closed := true } ∧
        (Stop w (NewRTCRtpSender w0 track transport).2.1).1.raws = w.raws ∧
        ∀ v : RTCSample,
          (Stop w (NewRTCRtpSender w0 track transport).2.1).1.samples.send
              (NewRTCRtpSender w0 track transport).2.1.Track.Samples v =
            ((Stop w (NewRTCRtpSender w0 track transport).2.1).1.samples,
              SendRes.crashed GoPanic.sendOnClosedChannel) ∧
          (Stop w (NewRTCRtpSender w0 track transport).2.1).1.samples.send
              (NewRTCRtpSender w0 track transport).2.1.Track.sampleInput v =
            ((Stop w (NewRTCRtpSender w0 track transport).2.1).1.samples,
              SendRes.crashed GoPanic.sendOnClosedChannel)) := by
  cases h : track.isRawRTP with
  | true =>
    obtain ⟨hl, ho⟩ := hraw h
    rw [NewRTCRtpSender_raw w0 track transport h] at hl ⊢
    simp only at hl
    have hp := Store.lookup_put w.raws (some w0.raws.length) cr
      { buf := cr.buf, cap := cr.cap, closed := true } hl
    simp [Stop, h, Store.close, hl, ho, hp, Store.send]
  | false =>
    obtain ⟨hl, ho⟩ := hsample h
    rw [NewRTCRtpSender_sample w0 track transport h] at hl ⊢
    simp only at hl
    have hp := Store.lookup_put w.samples (some w0.samples.length) cs
      { buf := cs.buf, cap := cs.cap, closed := true } hl
    simp [Stop, h, Store.close, hl, ho, hp, Store.send]

/-- C10: `Stop` is not idempotent.  For a Sender obtained from
`NewRTCRtpSender`, in a world in which the queue matching the Track's mode is
still open, the first `Stop` returns and a second `Stop` panics with a close of
a closed channel, leaving every queue as the first `Stop` left it. -/
theorem stop_twice_panics (w0 w : World) (track : RTCTrack) (transport : Nat)
    (cr : Chan Packet) (cs : Chan RTCSample)
    (hraw : track.isRawRTP = true →
      w.raws.lookup (NewRTCRtpSender w0 track transport).2.1.Track.RawRTP = some cr ∧
        cr.closed = false)
    (hsample : track.isRawRTP = false →
      w.samples.lookup (NewRTCRtpSender w0 track transport).2.1.Track.Samples = some cs ∧
        cs.closed = false) :
    (Stop w (NewRTCRtpSender w0 track transport).2.1).2 = Exit.returned ∧
      (Stop (Stop w (NewRTCRtpSender w0 track transport).2.1).1
          (NewRTCRtpSender w0 track transport).2.1).2 =
        Exit.crashed GoPanic.closeOfClosedChannel ∧
      (Stop (Stop w (NewRTCRtpSender w0 track transport).2.1).1
          (NewRTCRtpSender w0 track transport).2.1).1.raws =
        (Stop w (NewRTCRtpSender w0 track transport).2.1).1.raws ∧
      (Stop (Stop w (NewRTCRtpSender w0 track transport).2.1).1
          (NewRTCRtpSender w0 track transport).2.1).1.samples =
        (Stop w (NewRTCRtpSender w0 track transport).2.1).1.samples ∧
      (Stop (Stop w (NewRTCRtpSender w0 track transport).2.1).1
          (NewRTCRtpSender w0 track transport).2.1).1.rtcps =
        (Stop w (NewRTCRtpSender w0 track transport).2.1).1.rtcps := by
  cases h : track.isRawRTP with
  | true =>
    obtain ⟨hl, ho⟩ := hraw h
    rw [NewRTCRtpSender_raw w0 track transport h] at hl ⊢
    simp only at hl
    have hp := Store.lookup_put w.raws (some w0.raws.length) cr
      { buf := cr.buf, cap := cr.cap, closed := true } hl
    simp [Stop, h, Store.close, hl, ho, hp]
  | false =>
    obtain ⟨hl, ho⟩ := hsample h
    rw [NewRTCRtpSender_sample w0 track transport h] at hl ⊢
    simp only at hl
    have hp := Store.lookup_put w.samples (some w0.samples.length) cs
      { buf := cs.buf, cap := cs.cap, closed := true } hl
    simp [Stop, h, Store.close, hl, ho, hp]

/-! ## The send path -/

theorem Store.put_lookup {α : Type} (s : Store α) (r : Ref) (c : Chan α)
    (h : s.lookup r = some c) : s.put r c = s := by
  cases r with
  | none => rfl
  | some i =>
    simp only [Store.lookup, List.get?_eq_getElem?] at h
    simp only [Store.put]
    apply List.ext_getElem?
    intro j
    by_cases hj : i = j
    · subst hj
      by_cases hi : i < s.length
      · simp [List.getElem?_set, hi, h]
      · rw [List.getElem?_eq_none (Nat.le_of_not_lt hi)] at h
        cases h
    · simp [List.getElem?_set, hj]

theorem sendRTP_raws_update (w : World) (r : RTCRtpSender) (p : Packet) (X : Store Packet) :
    sendRTP { w with raws := X } r p = { sendRTP w r p with raws := X } := by
  simp only [sendRTP, World.setTransport, World.warn]
  split
  · rfl
  · split
    · rfl
    · split <;> rfl

theorem sendRTP_calls (w : World) (r : RTCRtpSender) (p : Packet) :
    ((sendRTP w r p).transports r.transport).srtpCalls =
      (w.transports r.transport).srtpCalls + 1 := by
  simp only [sendRTP, World.setTransport, World.warn]
  split
  · simp
  · split
    · simp
    · split <;> simp

theorem foldl_sendRTP_raws_update (r : RTCRtpSender) (ps : List Packet) (w : World)
    (X : Store Packet) :
    List.foldl (fun v p => sendRTP v r p) { w with raws := X } ps =
      { List.foldl (fun v p => sendRTP v r p) w ps with raws := X } := by
  induction ps generalizing w with
  | nil => rfl
  | cons p rest ih =>
    simp only [List.foldl_cons]
    rw [sendRTP_raws_update, ih]

theorem foldl_sendRTP_calls (r : RTCRtpSender) (ps : List Packet) (w : World) :
    ((List.foldl (fun v p => sendRTP v r p) w ps).transports r.transport).srtpCalls =
      (w.transports r.transport).srtpCalls + ps.length := by
  induction ps generalizing w with
  | nil => rfl
  | cons p rest ih =>
    simp only [List.foldl_cons, List.length_cons]
    rw [ih, sendRTP_calls]
    omega

theorem handleRawRTP_closed_aux (r : RTCRtpSender) (ch : Ref) (extra : Nat)
    (ps : List Packet) (w : World) (c : Chan Packet)
    (hl : w.raws.lookup ch = some c) (hb : c.buf = ps) (hc : c.closed = true) :
    handleRawRTP (ps.length + 1 + extra) w r ch =
      ({ List.foldl (fun v p => sendRTP v r p) w ps with
          raws := w.raws.put ch { buf := [], cap := c.cap, closed := true } },
        Exit.returned) := by
  induction ps generalizing w c with
  | nil =>
    have hfuel : ([] : List Packet).length + 1 + extra = extra + 1 := by simp; omega
    rw [hfuel]
    simp only [handleRawRTP, Store.recv_done w.raws ch c hl hb hc, List.foldl_nil]
    have hcc : ({ buf := [], cap := c.cap, closed := true } : Chan Packet) = c := by
      cases c; simp_all
    rw [hcc, Store.put_lookup w.raws ch c hl]
  | cons p rest ih =>
    have hfuel : (p :: rest).length + 1 + extra = (rest.length + 1 + extra) + 1 := by
      simp; omega
    rw [hfuel]
    simp only [handleRawRTP, Store.recv_item w.raws ch c p rest hl hb, List.foldl_cons]
    rw [sendRTP_raws_update]
    have hl1 : (({ sendRTP w r p with
        raws := w.raws.put ch { c with buf := rest } } : World)).raws.lookup ch =
          some { c with buf := rest } := Store.lookup_put w.raws ch c _ hl
    rw [ih _ { c with buf := rest } hl1 rfl hc, foldl_sendRTP_raws_update]
    simp [Store.put_put]

theorem sendRTP_transport (w : World) (r : RTCRtpSender) (p : Packet) :
    (sendRTP w r p).transports r.transport =
      { w.transports r.transport with
        srtpCalls := (w.transports r.transport).srtpCalls + 1,
        offered := (w.transports r.transport).offered ++
          (if (w.transports r.transport).reachesWrite (w.transports r.transport).srtpCalls
            then [p] else []),
        wire := (w.transports r.transport).wire ++
          (if (w.transports r.transport).writes (w.transports r.transport).srtpCalls
            then [p] else []) } := by
  cases hk : (w.transports r.transport).srtp (w.transports r.transport).srtpCalls with
  | error e =>
    simp [sendRTP, World.setTransport, World.warn, RTCDtlsTransport.reachesWrite,
      RTCDtlsTransport.writes, RTCDtlsTransport.writeStreamAt, hk]
  | ok session =>
    cases hs : session.OpenWriteStream with
    | error e =>
      simp [sendRTP, World.setTransport, World.warn, RTCDtlsTransport.reachesWrite,
        RTCDtlsTransport.writes, RTCDtlsTransport.writeStreamAt, hk, hs]
    | ok ws =>
      cases hw : ws.writeErr <;>
        simp [sendRTP, World.setTransport, World.warn, RTCDtlsTransport.reachesWrite,
          RTCDtlsTransport.writes, RTCDtlsTransport.writeStreamAt, hk, hs, hw]

theorem foldl_sendRTP_transport (r : RTCRtpSender) (ps : List Packet) (w : World) :
    (List.foldl (fun v p => sendRTP v r p) w ps).transports r.transport =
      { w.transports r.transport with
        srtpCalls := (w.transports r.transport).srtpCalls + ps.length,
        offered := (w.transports r.transport).offered ++
          ((ps.enumFrom (w.transports r.transport).srtpCalls).filter
            (fun kp => (w.transports r.transport).reachesWrite kp.1)).map Prod.snd,
        wire := (w.transports r.transport).wire ++
          ((ps.enumFrom (w.transports r.transport).srtpCalls).filter
            (fun kp => (w.transports r.transport).writes kp.1)).map Prod.snd } := by
  induction ps generalizing w with
  | nil => simp
  | cons p rest ih =>
    simp only [List.foldl_cons]
    rw [ih, sendRTP_transport]
    generalize w.transports r.transport = tr
    have e1 : ∀ (k c : Nat) (o wi : List Packet),
        RTCDtlsTransport.reachesWrite { tr with srtpCalls := c, offered := o, wire := wi } k =
          tr.reachesWrite k := fun _ _ _ _ => rfl
    have e2 : ∀ (k c : Nat) (o wi : List Packet),
        RTCDtlsTransport.writes { tr with srtpCalls := c, offered := o, wire := wi } k =
          tr.writes k := fun _ _ _ _ => rfl
    simp only [e1, e2, List.enumFrom_cons, List.filter_cons, List.length_cons]
    cases tr.reachesWrite tr.srtpCalls <;> cases tr.writes tr.srtpCalls <;>
      simp [Nat.add_assoc, Nat.add_comm 1]


theorem handleRawRTP_short_fuel (r : RTCRtpSender) (ch : Ref) (ps : List Packet) (w : World)
    (c : Chan Packet) (n : Nat) (hl : w.raws.lookup ch = some c) (hb : c.buf = ps)
    (hn : n ≤ ps.length) : (handleRawRTP n w r ch).2 = Exit.outOfFuel := by
  induction ps generalizing w c n with
  | nil =>
    have h0 : n = 0 := by simpa using hn
    subst h0
    rfl
  | cons p rest ih =>
    cases n with
    | zero => rfl
    | succ n =>
      simp only [handleRawRTP, Store.recv_item w.raws ch c p rest hl hb]
      rw [sendRTP_raws_update]
      exact ih _ { c with buf := rest } n (Store.lookup_put w.raws ch c _ hl) rfl
        (by simpa using hn)

/-- C4: on a closed raw queue holding the packets `c.buf`, `handleRawRTP`
returns, and the world it leaves is the one reached by handing each packet,
unchanged and in queue order, to `sendRTP`, with the queue drained; `sendRTP`
is entered exactly once per packet, and the worker does not return before it
has taken every packet from the queue. -/
theorem handleRawRTP_sends_all_then_returns (w : World) (r : RTCRtpSender) (ch : Ref)
    (c : Chan Packet) (extra : Nat) (hl : w.raws.lookup ch = some c)
    (hc : c.closed = true) :
    handleRawRTP (c.buf.length + 1 + extra) w r ch =
        ({ List.foldl (fun v p => sendRTP v r p) w c.buf with
            raws := w.raws.put ch { buf := [], cap := c.cap, closed := true } },
          Exit.returned) ∧
      ((handleRawRTP (c.buf.length + 1 + extra) w r ch).1.transports r.transport).srtpCalls =
        (w.transports r.transport).srtpCalls + c.buf.length ∧
      ∀ n, (handleRawRTP (min n c.buf.length) w r ch).2 = Exit.outOfFuel := by
  refine ⟨handleRawRTP_closed_aux r ch extra c.buf w c hl rfl hc, ?_, ?_⟩
  · rw [handleRawRTP_closed_aux r ch extra c.buf w c hl rfl hc]
    exact foldl_sendRTP_calls r c.buf w
  · intro n
    exact handleRawRTP_short_fuel r ch c.buf w c _ hl rfl (Nat.min_le_right _ _)

/-- Witness for `C4`: a closed raw queue holding three packets. -/
theorem handleRawRTP_sends_all_then_returns_witness :
    ({ sampleWorld with
        raws := [closedRawQueue] } : World).raws.lookup (some 0) =
        some closedRawQueue ∧
      (handleRawRTP 4
        { sampleWorld with
          raws := [closedRawQueue] } rawSender (some 0)).2 = Exit.returned ∧
      ((handleRawRTP 4
        { sampleWorld with
          raws := [closedRawQueue] } rawSender (some 0)).1.transports 0).srtpCalls = 3 :=
  ⟨rfl,
    congrArg Prod.snd (handleRawRTP_sends_all_then_returns
      { sampleWorld with
        raws := [closedRawQueue] } rawSender (some 0)
      closedRawQueue
      0 rfl rfl).1,
    (handleRawRTP_sends_all_then_returns
      { sampleWorld with
        raws := [closedRawQueue] } rawSender (some 0)
      closedRawQueue
      0 rfl rfl).2.1⟩


/-- Witness for `C3`: the raw-mode sender right after construction, its raw
queue holding two packets. -/
theorem stop_closes_active_queue_witness :
    ({ rawWorld with
        raws := [{ buf := [samplePacket 1, samplePacket 2], cap := 15, closed := false }] }
          : World).raws.lookup (NewRTCRtpSender sampleWorld rawTrack 0).2.1.Track.rawInput =
        some { buf := [samplePacket 1, samplePacket 2], cap := 15, closed := false } ∧
      (Stop { rawWorld with
          raws := [{ buf := [samplePacket 1, samplePacket 2], cap := 15, closed := false }] }
        (NewRTCRtpSender sampleWorld rawTrack 0).2.1).2 = Exit.returned :=
  ⟨rfl,
    (stop_closes_active_queue sampleWorld
      { rawWorld with
        raws := [{ buf := [samplePacket 1, samplePacket 2], cap := 15, closed := false }] }
      rawTrack 0 { buf := [samplePacket 1, samplePacket 2], cap := 15, closed := false }
      { buf := [], cap := 15, closed := true }
      (fun _ => ⟨rfl, rfl⟩) (fun h => by cases h)).1⟩

/-- Witness for `C10`: the sample-mode sender right after construction. -/
theorem stop_twice_panics_witness :
    (NewRTCRtpSender sampleWorld sampleTrack 0).1.samples.lookup
        (NewRTCRtpSender sampleWorld sampleTrack 0).2.1.Track.Samples =
        some { buf := [], cap := 15, closed := false } ∧
      (Stop (Stop (NewRTCRtpSender sampleWorld sampleTrack 0).1
          (NewRTCRtpSender sampleWorld sampleTrack 0).2.1).1
        (NewRTCRtpSender sampleWorld sampleTrack 0).2.1).2 =
          Exit.crashed GoPanic.closeOfClosedChannel :=
  ⟨rfl,
    (stop_twice_panics sampleWorld (NewRTCRtpSender sampleWorld sampleTrack 0).1 sampleTrack 0
      { buf := [], cap := 15, closed := true } { buf := [], cap := 15, closed := false }
      (fun h => by cases h) (fun _ => ⟨rfl, rfl⟩)).2.1⟩


/-- C6: failures of the send path never stop the raw worker.  On a closed raw
queue holding the packets `c.buf`, whatever the transport answers to
`getSRTPSession`, `OpenWriteStream` and `WriteRTP`, `handleRawRTP` returns
after entering `sendRTP` once per packet; `WriteRTP` is invoked for exactly the
packets whose call obtained session and stream, and the transport carries
exactly the packets whose write also succeeded, both in queue order.  Each
single `sendRTP` call offers its packet to `WriteRTP` exactly when session and
stream are obtained, and touches no queue. -/
theorem send_failures_never_stop_worker (w : World) (r : RTCRtpSender) (ch : Ref)
    (c : Chan Packet) (extra : Nat) (hl : w.raws.lookup ch = some c)
    (hc : c.closed = true) :
    (handleRawRTP (c.buf.length + 1 + extra) w r ch).2 = Exit.returned ∧
      ((handleRawRTP (c.buf.length + 1 + extra) w r ch).1.transports r.transport).srtpCalls =
        (w.transports r.transport).srtpCalls + c.buf.length ∧
      ((handleRawRTP (c.buf.length + 1 + extra) w r ch).1.transports r.transport).offered =
        (w.transports r.transport).offered ++
          ((c.buf.enumFrom (w.transports r.transport).srtpCalls).filter
            (fun kp => (w.transports r.transport).reachesWrite kp.1)).map Prod.snd ∧
      ((handleRawRTP (c.buf.length + 1 + extra) w r ch).1.transports r.transport).wire =
        (w.transports r.transport).wire ++
          ((c.buf.enumFrom (w.transports r.transport).srtpCalls).filter
            (fun kp => (w.transports r.transport).writes kp.1)).map Prod.snd ∧
      ∀ (v : World) (p : Packet),
        ((sendRTP v r p).transports r.transport).offered =
            (v.transports r.transport).offered ++
              (if (v.transports r.transport).reachesWrite (v.transports r.transport).srtpCalls
                then [p] else []) ∧
          ((sendRTP v r p).transports r.transport).wire =
            (v.transports r.transport).wire ++
              (if (v.transports r.transport).writes (v.transports r.transport).srtpCalls
                then [p] else []) ∧
          (sendRTP v r p).raws = v.raws ∧
          (sendRTP v r p).samples = v.samples ∧
          (sendRTP v r p).rtcps = v.rtcps := by
  have hrun := handleRawRTP_closed_aux r ch extra c.buf w c hl rfl hc
  refine ⟨by rw [hrun], ?_, ?_, ?_, ?_⟩
  · rw [hrun]
    exact foldl_sendRTP_calls r c.buf w
  · rw [hrun]
    show ((List.foldl (fun v p => sendRTP v r p) w c.buf).transports r.transport).offered = _
    rw [foldl_sendRTP_transport]
  · rw [hrun]
    show ((List.foldl (fun v p => sendRTP v r p) w c.buf).transports r.transport).wire = _
    rw [foldl_sendRTP_transport]
  · intro v p
    refine ⟨by rw [sendRTP_transport], by rw [sendRTP_transport], ?_, ?_, ?_⟩
    · have h := congrArg World.raws (sendRTP_raws_update v r p v.raws)
      simp only at h
      rw [← h]
    · simp only [sendRTP, World.setTransport, World.warn]
      split
      · rfl
      · split
        · rfl
        · split <;> rfl
    · simp only [sendRTP, World.setTransport, World.warn]
      split
      · rfl
      · split
        · rfl
        · split <;> rfl

/-- Witness for `C6`: three packets over a transport whose second call fails to
get a session; the first and the third packet reach the wire. -/
theorem send_failures_never_stop_worker_witness :
    ({ sampleWorld with raws := [closedRawQueue] } : World).raws.lookup (some 0) =
        some closedRawQueue ∧
      (handleRawRTP 4 { sampleWorld with raws := [closedRawQueue] } rawSender (some 0)).2 =
        Exit.returned ∧
      ((handleRawRTP 4 { sampleWorld with raws := [closedRawQueue] } rawSender
        (some 0)).1.transports 0).wire = [samplePacket 1, samplePacket 3] :=
  ⟨rfl,
    (send_failures_never_stop_worker { sampleWorld with raws := [closedRawQueue] } rawSender
      (some 0) closedRawQueue 0 rfl rfl).1,
    (send_failures_never_stop_worker { sampleWorld with raws := [closedRawQueue] } rawSender
      (some 0) closedRawQueue 0 rfl rfl).2.2.2.1⟩


/-! ## The sample worker -/

theorem sendAll_eq_foldl (r : RTCRtpSender) (ps : List Packet) (w : World) :
    sendAll w r ps = List.foldl (fun v p => sendRTP v r p) w ps := by
  induction ps generalizing w with
  | nil => rfl
  | cons p rest ih => simp only [sendAll, List.foldl_cons, ih]

theorem sendRTP_samples_update (w : World) (r : RTCRtpSender) (p : Packet)
    (X : Store RTCSample) :
    sendRTP { w with samples := X } r p = { sendRTP w r p with samples := X } := by
  simp only [sendRTP, World.setTransport, World.warn]
  split
  · rfl
  · split
    · rfl
    · split <;> rfl

theorem foldl_sendRTP_samples_update (r : RTCRtpSender) (ps : List Packet) (w : World)
    (X : Store RTCSample) :
    List.foldl (fun v p => sendRTP v r p) { w with samples := X } ps =
      { List.foldl (fun v p => sendRTP v r p) w ps with samples := X } := by
  induction ps generalizing w with
  | nil => rfl
  | cons p rest ih =>
    simp only [List.foldl_cons]
    rw [sendRTP_samples_update, ih]

theorem handleSampleRTPLoop_closed_aux (api : PacketizerApi) (r : RTCRtpSender) (ch : Ref)
    (extra : Nat) (ss : List RTCSample) (w : World) (c : Chan RTCSample)
    (packetizer : api.State)
    (hl : w.samples.lookup ch = some c) (hb : c.buf = ss) (hc : c.closed = true) :
    handleSampleRTPLoop api (ss.length + 1 + extra) w r ch packetizer =
      ({ List.foldl (fun v p => sendRTP v r p) w (packetizeAll api packetizer ss) with
          samples := w.samples.put ch { buf := [], cap := c.cap, closed := true } },
        Exit.returned) := by
  induction ss generalizing w c packetizer with
  | nil =>
    have hfuel : ([] : List RTCSample).length + 1 + extra = extra + 1 := by simp; omega
    rw [hfuel]
    simp only [handleSampleRTPLoop, Store.recv_done w.samples ch c hl hb hc, packetizeAll,
      List.foldl_nil]
    have hcc : ({ buf := [], cap := c.cap, closed := true } : Chan RTCSample) = c := by
      cases c; simp_all
    rw [hcc, Store.put_lookup w.samples ch c hl]
  | cons s rest ih =>
    have hfuel : (s :: rest).length + 1 + extra = (rest.length + 1 + extra) + 1 := by
      simp; omega
    rw [hfuel]
    simp only [handleSampleRTPLoop, Store.recv_item w.samples ch c s rest hl hb, packetizeAll,
      List.foldl_append]
    rw [sendAll_eq_foldl, foldl_sendRTP_samples_update]
    have hl1 : (({ List.foldl (fun v p => sendRTP v r p) w
          (api.Packetize packetizer s.Data s.Samples).1 with
        samples := w.samples.put ch { c with buf := rest } } : World)).samples.lookup ch =
          some { c with buf := rest } := Store.lookup_put w.samples ch c _ hl
    rw [ih _ { c with buf := rest } _ hl1 rfl hc, foldl_sendRTP_samples_update]
    simp [Store.put_put]

/-- C5: on a closed sample queue holding the samples `c.buf`, `handleSampleRTP`
returns, and the world it leaves is the one reached by handing to `sendRTP`, in
order, the concatenation over the samples in queue order of the packet lists
that one packetizer, made once with MTU 1400 and the Track's parameters and
carrying its state from sample to sample, returns for each sample's data and
sample count.  A sample with no packets adds nothing to that list and the
worker goes on to the next sample; `sendRTP` is entered once per packet. -/
theorem handleSampleRTP_sends_packetized_samples (api : PacketizerApi) (w : World)
    (r : RTCRtpSender) (ch : Ref) (c : Chan RTCSample) (extra : Nat)
    (hl : w.samples.lookup ch = some c) (hc : c.closed = true) :
    handleSampleRTP api (c.buf.length + 1 + extra) w r ch =
        ({ List.foldl (fun v p => sendRTP v r p) w
              (packetizeAll api
                (api.NewPacketizer 1400 r.Track.PayloadType r.Track.Ssrc r.Track.Codec.Payloader
                  api.NewRandomSequencer r.Track.Codec.ClockRate) c.buf) with
            samples := w.samples.put ch { buf := [], cap := c.cap, closed := true } },
          Exit.returned) ∧
      ((handleSampleRTP api (c.buf.length + 1 + extra) w r ch).1.transports
          r.transport).srtpCalls =
        (w.transports r.transport).srtpCalls +
          (packetizeAll api
            (api.NewPacketizer 1400 r.Track.PayloadType r.Track.Ssrc r.Track.Codec.Payloader
              api.NewRandomSequencer r.Track.Codec.ClockRate) c.buf).length ∧
      ∀ (st : api.State) (sample : RTCSample) (rest : List RTCSample),
        packetizeAll api st (sample :: rest) =
          (api.Packetize st sample.Data sample.Samples).1 ++
            packetizeAll api (api.Packetize st sample.Data sample.Samples).2 rest := by
  have hrun := handleSampleRTPLoop_closed_aux api r ch extra c.buf w c
    (api.NewPacketizer 1400 r.Track.PayloadType r.Track.Ssrc r.Track.Codec.Payloader
      api.NewRandomSequencer r.Track.Codec.ClockRate) hl rfl hc
  refine ⟨hrun, ?_, fun _ _ _ => rfl⟩
  have hsame : handleSampleRTP api (c.buf.length + 1 + extra) w r ch =
      handleSampleRTPLoop api (c.buf.length + 1 + extra) w r ch
        (api.NewPacketizer 1400 r.Track.PayloadType r.Track.Ssrc r.Track.Codec.Payloader
          api.NewRandomSequencer r.Track.Codec.ClockRate) := rfl
  rw [hsame, hrun]
  exact foldl_sendRTP_calls r _ w

/-- Witness for `C5`: a closed sample queue holding a sample of two bytes, an
empty sample and a sample of one byte; the packetizer numbers packets from
100, and the call that fails to get a session loses packet 101. -/
theorem handleSampleRTP_sends_packetized_samples_witness :
    ({ sampleWorld with samples := [closedSampleQueue] } : World).samples.lookup (some 0) =
        some closedSampleQueue ∧
      (handleSampleRTP samplePacketizer 4 { sampleWorld with samples := [closedSampleQueue] }
        sampleSender (some 0)).2 = Exit.returned ∧
      ((handleSampleRTP samplePacketizer 4 { sampleWorld with samples := [closedSampleQueue] }
        sampleSender (some 0)).1.transports 0).srtpCalls = 3 :=
  ⟨rfl,
    congrArg Prod.snd (handleSampleRTP_sends_packetized_samples samplePacketizer
      { sampleWorld with samples := [closedSampleQueue] } sampleSender (some 0)
      closedSampleQueue 0 rfl rfl).1,
    (handleSampleRTP_sends_packetized_samples samplePacketizer
      { sampleWorld with samples := [closedSampleQueue] } sampleSender (some 0)
      closedSampleQueue 0 rfl rfl).2.1⟩


/-! ## The feedback worker -/

theorem handleRTCPLoop_cut_after_error (Unmarshal : List Nat → Except Err RtcpPacket)
    (r : RTCRtpSender) (ch : Ref) (extra : Nat) (e : Err)
    (later : List (Except Err (List Nat))) (pre : List (List Nat)) (w : World) :
    handleRTCPLoop Unmarshal (pre.length + 1 + extra) w r
        { pending := pre.map Except.ok ++ Except.error e :: later } ch =
      handleRTCPLoop Unmarshal (pre.length + 1 + extra) w r
        { pending := pre.map Except.ok ++ [Except.error e] } ch := by
  induction pre generalizing w with
  | nil =>
    have hfuel : ([] : List (List Nat)).length + 1 + extra = extra + 1 := by simp; omega
    rw [hfuel]
    simp only [handleRTCPLoop, ReadStream.Read, List.map_nil, List.nil_append]
  | cons d rest ih =>
    have hfuel : (d :: rest).length + 1 + extra = (rest.length + 1 + extra) + 1 := by
      simp; omega
    rw [hfuel]
    simp only [handleRTCPLoop, ReadStream.Read, List.map_cons, List.cons_append]
    cases Unmarshal d with
    | error e1 => exact ih _
    | ok pkt =>
      dsimp only
      cases hs : w.rtcps.send ch pkt with
      | mk s res =>
        cases res with
        | sent => exact ih _
        | notReady => exact ih _
        | crashed p => rfl

theorem handleRTCPLoop_error_keeps_queue (Unmarshal : List Nat → Except Err RtcpPacket)
    (r : RTCRtpSender) (ch : Ref) (extra : Nat) (e : Err) (pre : List (List Nat))
    (w : World) :
    (handleRTCPLoop Unmarshal (pre.length + 1 + extra) w r
        { pending := pre.map Except.ok ++ [Except.error e] } ch).1.rtcps =
      (handleRTCPLoop Unmarshal (pre.length + 1 + extra) w r
        { pending := pre.map Except.ok } ch).1.rtcps := by
  induction pre generalizing w with
  | nil =>
    have hfuel : ([] : List (List Nat)).length + 1 + extra = extra + 1 := by simp; omega
    rw [hfuel]
    simp only [handleRTCPLoop, ReadStream.Read, List.map_nil, List.nil_append, World.warn]
  | cons d rest ih =>
    have hfuel : (d :: rest).length + 1 + extra = (rest.length + 1 + extra) + 1 := by
      simp; omega
    rw [hfuel]
    simp only [handleRTCPLoop, ReadStream.Read, List.map_cons, List.cons_append]
    cases Unmarshal d with
    | error e1 => exact ih _
    | ok pkt =>
      dsimp only
      cases hs : w.rtcps.send ch pkt with
      | mk s res =>
        cases res with
        | sent => exact ih _
        | notReady => exact ih _
        | crashed p => rfl

theorem Store.send_keeps_open {α : Type} (s : Store α) (ch : Ref) (v : α)
    (hq : ∀ c, s.lookup ch = some c → c.closed = false) :
    (∀ p, (s.send ch v).2 ≠ SendRes.crashed p) ∧
      ∀ c, (s.send ch v).1.lookup ch = some c → c.closed = false := by
  cases hl : s.lookup ch with
  | none => simp [Store.send, hl]
  | some c =>
    have ho := hq c hl
    by_cases hfull : c.buf.length < c.cap
    · have hp := Store.lookup_put s ch c { buf := c.buf ++ [v], cap := c.cap, closed := false } hl
      simp only [Store.send, hl, ho, hfull, if_true, Bool.false_eq_true, if_false, hp]
      refine ⟨fun p h => (by cases h), fun d hd => ?_⟩
      cases hd
      rfl
    · simp [Store.send, hl, ho, hfull]

theorem handleRTCPLoop_error_returns (Unmarshal : List Nat → Except Err RtcpPacket)
    (r : RTCRtpSender) (ch : Ref) (extra : Nat) (e : Err) (pre : List (List Nat))
    (w : World) (hq : ∀ c, w.rtcps.lookup ch = some c → c.closed = false) :
    (handleRTCPLoop Unmarshal (pre.length + 1 + extra) w r
        { pending := pre.map Except.ok ++ [Except.error e] } ch).2 = Exit.returned := by
  induction pre generalizing w with
  | nil =>
    have hfuel : ([] : List (List Nat)).length + 1 + extra = extra + 1 := by simp; omega
    rw [hfuel]
    simp only [handleRTCPLoop, ReadStream.Read, List.map_nil, List.nil_append]
  | cons d rest ih =>
    have hfuel : (d :: rest).length + 1 + extra = (rest.length + 1 + extra) + 1 := by
      simp; omega
    rw [hfuel]
    simp only [handleRTCPLoop, ReadStream.Read, List.map_cons, List.cons_append]
    cases Unmarshal d with
    | error e1 => exact ih _ hq
    | ok pkt =>
      dsimp only
      have hk := Store.send_keeps_open w.rtcps ch pkt hq
      cases hs : w.rtcps.send ch pkt with
      | mk s res =>
        rw [hs] at hk
        cases res with
        | sent => exact ih _ hk.2
        | notReady => exact ih _ hq
        | crashed p => exact absurd rfl (hk.1 p)


/-- C7: `handleRTCP` returns at the first failure.  When `getSRTCPSession`
fails, or when `OpenReadStream` fails, it returns at once with one log line
and no read, the FeedbackQueue and every other queue untouched.  When the
reads of the datagrams `pre` succeed and the next read fails, the run is the
same whatever would have arrived later, the queues end as they were right
before the failed read, and the worker returns provided the FeedbackQueue is
not closed. -/
theorem handleRTCP_returns_at_first_failure (Unmarshal : List Nat → Except Err RtcpPacket)
    (fuel : Nat) (w : World) (r : RTCRtpSender) (transport : Nat) (ch : Ref) :
    (∀ e, (w.transports transport).srtcp = Except.error e →
        handleRTCP Unmarshal fuel w r transport ch =
          (w.warn (LogLine.failedSRTCPSession e r.Track.Ssrc), Exit.returned)) ∧
      (∀ session e, (w.transports transport).srtcp = Except.ok session →
        session.OpenReadStream r.Track.Ssrc = Except.error e →
        handleRTCP Unmarshal fuel w r transport ch =
          (w.warn (LogLine.failedRTCPReadStream e r.Track.Ssrc), Exit.returned)) ∧
      (∀ l, (w.warn l).rtcps = w.rtcps ∧ (w.warn l).raws = w.raws ∧
        (w.warn l).samples = w.samples) ∧
      (∀ session (pre : List (List Nat)) e later extra,
        (w.transports transport).srtcp = Except.ok session →
        session.OpenReadStream r.Track.Ssrc =
          Except.ok { pending := pre.map Except.ok ++ Except.error e :: later } →
        handleRTCP Unmarshal (pre.length + 1 + extra) w r transport ch =
            handleRTCPLoop Unmarshal (pre.length + 1 + extra) w r
              { pending := pre.map Except.ok ++ [Except.error e] } ch ∧
          (handleRTCP Unmarshal (pre.length + 1 + extra) w r transport ch).1.rtcps =
            (handleRTCPLoop Unmarshal (pre.length + 1 + extra) w r
              { pending := pre.map Except.ok } ch).1.rtcps ∧
          ((∀ c, w.rtcps.lookup ch = some c → c.closed = false) →
            (handleRTCP Unmarshal (pre.length + 1 + extra) w r transport ch).2 =
              Exit.returned)) := by
  refine ⟨?_, ?_, fun l => ⟨rfl, rfl, rfl⟩, ?_⟩
  · intro e he
    simp only [handleRTCP, he]
  · intro session e hs he
    simp only [handleRTCP, hs, he]
  · intro session pre e later extra hs hrs
    have hrun : handleRTCP Unmarshal (pre.length + 1 + extra) w r transport ch =
        handleRTCPLoop Unmarshal (pre.length + 1 + extra) w r
          { pending := pre.map Except.ok ++ [Except.error e] } ch := by
      simp only [handleRTCP, hs, hrs]
      exact handleRTCPLoop_cut_after_error Unmarshal r ch extra e later pre w
    refine ⟨hrun, ?_, ?_⟩
    · rw [hrun]
      exact handleRTCPLoop_error_keeps_queue Unmarshal r ch extra e pre w
    · intro hq
      rw [hrun]
      exact handleRTCPLoop_error_returns Unmarshal r ch extra e pre w hq

/-- Witness for `C7`: the sample transport delivers a malformed datagram, a
well-formed one and then a read error; the worker returns with the one decoded
packet in the queue. -/
theorem handleRTCP_returns_at_first_failure_witness :
    (rawWorld.transports 0).srtcp =
        Except.ok
          { OpenReadStream := fun _ =>
              Except.ok
                { pending := [Except.ok [0], Except.ok [201, 5], Except.error { code := 9 }] } } ∧
      (handleRTCP sampleUnmarshal 3 rawWorld rawSender 0 rawSender.Track.rtcpInput).2 =
        Exit.returned ∧
      (handleRTCP sampleUnmarshal 3 rawWorld rawSender 0 rawSender.Track.rtcpInput).1.rtcps =
        [{ buf := [{ kind := 201, body := [5] }], cap := 15, closed := false }] :=
  ⟨rfl,
    ((handleRTCP_returns_at_first_failure sampleUnmarshal 3 rawWorld rawSender 0
      rawSender.Track.rtcpInput).2.2.2
      { OpenReadStream := fun _ =>
          Except.ok
            { pending := [Except.ok [0], Except.ok [201, 5], Except.error { code := 9 }] } }
      [[0], [201, 5]] { code := 9 } [] 0 rfl rfl).2.2
      (fun c hc => by cases hc; rfl),
    ((handleRTCP_returns_at_first_failure sampleUnmarshal 3 rawWorld rawSender 0
      rawSender.Track.rtcpInput).2.2.2
      { OpenReadStream := fun _ =>
          Except.ok
            { pending := [Except.ok [0], Except.ok [201, 5], Except.error { code := 9 }] } }
      [[0], [201, 5]] { code := 9 } [] 0 rfl rfl).2.1⟩


theorem handleRTCPLoop_decoded_prefix (Unmarshal : List Nat → Except Err RtcpPacket)
    (r : RTCRtpSender) (ch : Ref) (fuel : Nat) (later : List (Except Err (List Nat)))
    (ds : List (List Nat)) (pkts : List RtcpPacket) (w : World) (c : Chan RtcpPacket)
    (hl : w.rtcps.lookup ch = some c) (ho : c.closed = false)
    (hd : ds.map Unmarshal = pkts.map Except.ok) (hlen : c.buf.length ≤ c.cap) :
    handleRTCPLoop Unmarshal (ds.length + fuel) w r { pending := ds.map Except.ok ++ later } ch =
      handleRTCPLoop Unmarshal fuel
        { w with
          rtcps := w.rtcps.put ch
            { buf := (c.buf ++ pkts).take c.cap, cap := c.cap, closed := false } }
        r { pending := later } ch := by
  induction ds generalizing pkts w c with
  | nil =>
    have hp : pkts = [] := by
      cases pkts with
      | nil => rfl
      | cons a b => simp at hd
    subst hp
    have hcc : ({ buf := c.buf.take c.cap, cap := c.cap, closed := false } : Chan RtcpPacket)
        = c := by
      cases c
      simp_all [List.take_of_length_le]
    simp only [List.length_nil, Nat.zero_add, List.map_nil, List.nil_append, List.append_nil]
    rw [hcc, Store.put_lookup w.rtcps ch c hl]
  | cons d rest ih =>
    cases pkts with
    | nil => simp at hd
    | cons pkt pkts =>
      simp only [List.map_cons, List.cons.injEq] at hd
      obtain ⟨hd1, hd2⟩ := hd
      have hfuel : (d :: rest).length + fuel = (rest.length + fuel) + 1 := by
        simp; omega
      rw [hfuel]
      by_cases hfull : c.buf.length < c.cap
      · have hsend : w.rtcps.send ch pkt =
            (w.rtcps.put ch { c with buf := c.buf ++ [pkt] }, SendRes.sent) := by
          simp [Store.send, hl, ho, hfull]
        simp only [handleRTCPLoop, ReadStream.Read, List.map_cons, List.cons_append, hd1, hsend]
        have hl1 : (({ w with rtcps := w.rtcps.put ch { c with buf := c.buf ++ [pkt] } }
            : World)).rtcps.lookup ch = some { c with buf := c.buf ++ [pkt] } :=
          Store.lookup_put w.rtcps ch c _ hl
        rw [ih pkts _ { c with buf := c.buf ++ [pkt] } hl1 ho hd2
          (by simp only [List.length_append, List.length_singleton]; omega)]
        simp [Store.put_put]
      · have hsend : w.rtcps.send ch pkt = (w.rtcps, SendRes.notReady) := by
          simp [Store.send, hl, ho, hfull]
        simp only [handleRTCPLoop, ReadStream.Read, List.map_cons, List.cons_append, hd1, hsend]
        rw [ih pkts w c hl ho hd2 hlen]
        have hge : c.cap ≤ c.buf.length := Nat.le_of_not_lt hfull
        rw [List.take_append_of_le_length hge, List.take_append_of_le_length hge]


/-- C9: with session and read stream obtained, an empty open FeedbackQueue of
capacity `cap` and `cap + 1` datagrams that all decode, `handleRTCP` reads all
of them without ever stopping at the full queue: after `cap + 1` turns the
loop is still running, the queue holds exactly the first `cap` packets in
arrival order, only the last one is dropped and no log line is written.  What
follows shows the worker is back in `Read`: with nothing more to read it waits
there, a read error makes it log and return, and a further datagram is taken
up by the loop.  The FeedbackQueue `NewRTCRtpSender` makes is empty, open and
of capacity 15. -/
theorem feedback_queue_drops_when_full (Unmarshal : List Nat → Except Err RtcpPacket)
    (w : World) (r : RTCRtpSender) (transport : Nat) (ch : Ref) (session : SRTCPSession)
    (ds : List (List Nat)) (pkts : List RtcpPacket) (cap extra : Nat)
    (later : List (Except Err (List Nat)))
    (hs : (w.transports transport).srtcp = Except.ok session)
    (hrs : session.OpenReadStream r.Track.Ssrc =
      Except.ok { pending := ds.map Except.ok ++ later })
    (hl : w.rtcps.lookup ch = some { buf := [], cap := cap, closed := false })
    (hd : ds.map Unmarshal = pkts.map Except.ok) (hn : pkts.length = cap + 1) :
    handleRTCP Unmarshal (cap + 1 + (extra + 1)) w r transport ch =
        (match later with
          | [] =>
            ({ w with
                rtcps := w.rtcps.put ch { buf := pkts.take cap, cap := cap, closed := false } },
              Exit.blocked)
          | Except.error e :: _ =>
            ({ w with
                rtcps := w.rtcps.put ch { buf := pkts.take cap, cap := cap, closed := false },
                log := w.log ++ [LogLine.failedRead e r.Track.Ssrc] },
              Exit.returned)
          | Except.ok d :: tail =>
            handleRTCPLoop Unmarshal (extra + 1)
              { w with
                rtcps := w.rtcps.put ch { buf := pkts.take cap, cap := cap, closed := false } }
              r { pending := Except.ok d :: tail } ch) ∧
      handleRTCP Unmarshal (cap + 1) w r transport ch =
        ({ w with
            rtcps := w.rtcps.put ch { buf := pkts.take cap, cap := cap, closed := false } },
          Exit.outOfFuel) ∧
      (pkts.take cap).length = cap ∧
      (pkts.drop cap).length = 1 ∧
      pkts.take cap ++ pkts.drop cap = pkts ∧
      ∀ (w0 : World) (track : RTCTrack) (t : Nat),
        (NewRTCRtpSender w0 track t).1.rtcps.lookup
            (NewRTCRtpSender w0 track t).2.1.Track.rtcpInput =
          some { buf := [], cap := 15, closed := false } := by
  have hlen : ds.length = cap + 1 := by
    have h := congrArg List.length hd
    simpa [hn] using h
  have hpre := fun fuel => handleRTCPLoop_decoded_prefix Unmarshal r ch fuel later ds pkts w
    { buf := [], cap := cap, closed := false } hl rfl hd (Nat.zero_le _)
  simp only [List.nil_append] at hpre
  refine ⟨?_, ?_, ?_, ?_, List.take_append_drop cap pkts, ?_⟩
  · simp only [handleRTCP, hs, hrs]
    rw [← hlen, hpre (extra + 1)]
    cases later with
    | nil => simp only [handleRTCPLoop, ReadStream.Read]
    | cons x tail =>
      cases x with
      | error e => simp only [handleRTCPLoop, ReadStream.Read, World.warn]
      | ok d => rfl
  · simp only [handleRTCP, hs, hrs]
    have h0 := hpre 0
    simp only [Nat.add_zero] at h0
    rw [← hlen, h0]
    simp only [handleRTCPLoop]
  · simp [hn]
  · simp [hn]
  · intro w0 track t
    cases h : track.isRawRTP with
    | true =>
      rw [NewRTCRtpSender_raw w0 track t h]
      simp [Store.lookup]
    | false =>
      rw [NewRTCRtpSender_sample w0 track t h]
      simp [Store.lookup]

/-- Witness for `C9`: sixteen feedback packets and then a read error arrive for
a freshly made sender; the worker gets past the full queue of capacity 15 to
the failing read and returns, the queue holding the first fifteen packets. -/
theorem feedback_queue_drops_when_full_witness :
    floodWorld.rtcps.lookup rawSender.Track.rtcpInput =
        some { buf := [], cap := 15, closed := false } ∧
      floodDatagrams.map sampleUnmarshal = floodPackets.map Except.ok ∧
      (handleRTCP sampleUnmarshal 17 floodWorld rawSender 0 rawSender.Track.rtcpInput).2 =
        Exit.returned ∧
      (handleRTCP sampleUnmarshal 17 floodWorld rawSender 0
        rawSender.Track.rtcpInput).1.rtcps =
          [{ buf := floodPackets.take 15, cap := 15, closed := false }] ∧
      (handleRTCP sampleUnmarshal 17 floodWorld rawSender 0
        rawSender.Track.rtcpInput).1.log = [LogLine.failedRead { code := 9 } 7] :=
  ⟨rfl, rfl,
    congrArg Prod.snd (feedback_queue_drops_when_full sampleUnmarshal floodWorld rawSender 0
      rawSender.Track.rtcpInput
      { OpenReadStream := fun _ =>
          Except.ok
            { pending := floodDatagrams.map Except.ok ++ [Except.error { code := 9 }] } }
      floodDatagrams floodPackets 15 0 [Except.error { code := 9 }] rfl rfl rfl rfl rfl).1,
    rfl, rfl⟩


/-- C8: a malformed datagram does not end the feedback worker.  From any state
of the loop with the FeedbackQueue open, when the next datagram fails to decode
and the one after it decodes to `pkt`, the first adds one log line and nothing
to the queue, `pkt` is appended to the queue exactly when the queue has free
capacity at that moment, and the loop then reads on: with nothing more to read
it waits in `Read`, a read error makes it log and return, and a further
datagram is taken up by the loop.  The same holds for `handleRTCP` when these
are the first two datagrams of its read stream. -/
theorem malformed_datagram_does_not_stop_feedback
    (Unmarshal : List Nat → Except Err RtcpPacket) (extra : Nat) (w : World)
    (r : RTCRtpSender) (ch : Ref) (c : Chan RtcpPacket) (bad good : List Nat) (e : Err)
    (pkt : RtcpPacket) (later : List (Except Err (List Nat)))
    (hbad : Unmarshal bad = Except.error e) (hgood : Unmarshal good = Except.ok pkt)
    (hl : w.rtcps.lookup ch = some c) (ho : c.closed = false) :
    handleRTCPLoop Unmarshal (extra + 3) w r
          { pending := Except.ok bad :: Except.ok good :: later } ch =
        (match later with
          | [] =>
            ({ w with
                rtcps :=
                  if c.buf.length < c.cap then
                    w.rtcps.put ch { buf := c.buf ++ [pkt], cap := c.cap, closed := false }
                  else w.rtcps,
                log := w.log ++ [LogLine.failedUnmarshal e] },
              Exit.blocked)
          | Except.error e2 :: _ =>
            ({ w with
                rtcps :=
                  if c.buf.length < c.cap then
                    w.rtcps.put ch { buf := c.buf ++ [pkt], cap := c.cap, closed := false }
                  else w.rtcps,
                log := w.log ++
                  [LogLine.failedUnmarshal e, LogLine.failedRead e2 r.Track.Ssrc] },
              Exit.returned)
          | Except.ok d :: tail =>
            handleRTCPLoop Unmarshal (extra + 1)
              { w with
                rtcps :=
                  if c.buf.length < c.cap then
                    w.rtcps.put ch { buf := c.buf ++ [pkt], cap := c.cap, closed := false }
                  else w.rtcps,
                log := w.log ++ [LogLine.failedUnmarshal e] }
              r { pending := Except.ok d :: tail } ch) ∧
      handleRTCPLoop Unmarshal 1 w r
          { pending := Except.ok bad :: Except.ok good :: later } ch =
        ({ w with log := w.log ++ [LogLine.failedUnmarshal e] }, Exit.outOfFuel) ∧
      handleRTCPLoop Unmarshal 2 w r
          { pending := Except.ok bad :: Except.ok good :: later } ch =
        ({ w with
            rtcps :=
              if c.buf.length < c.cap then
                w.rtcps.put ch { buf := c.buf ++ [pkt], cap := c.cap, closed := false }
              else w.rtcps,
            log := w.log ++ [LogLine.failedUnmarshal e] },
          Exit.outOfFuel) ∧
      (if c.buf.length < c.cap then
        (w.rtcps.put ch { buf := c.buf ++ [pkt], cap := c.cap, closed := false }).lookup ch =
          some { buf := c.buf ++ [pkt], cap := c.cap, closed := false }
      else True) ∧
      ∀ (transport : Nat) (session : SRTCPSession),
        (w.transports transport).srtcp = Except.ok session →
        session.OpenReadStream r.Track.Ssrc =
          Except.ok { pending := Except.ok bad :: Except.ok good :: later } →
        handleRTCP Unmarshal (extra + 3) w r transport ch =
          handleRTCPLoop Unmarshal (extra + 3) w r
            { pending := Except.ok bad :: Except.ok good :: later } ch := by
  have hsend : w.rtcps.send ch pkt =
      if c.buf.length < c.cap then
        (w.rtcps.put ch { buf := c.buf ++ [pkt], cap := c.cap, closed := false }, SendRes.sent)
      else (w.rtcps, SendRes.notReady) := by
    by_cases hfull : c.buf.length < c.cap <;>
      simp [Store.send, hl, ho, hfull]
  refine ⟨?_, ?_, ?_, ?_, ?_⟩
  · by_cases hfull : c.buf.length < c.cap
    · simp only [hfull, if_true] at hsend ⊢
      cases later with
      | nil => simp only [handleRTCPLoop, ReadStream.Read, hbad, hgood, hsend, World.warn]
      | cons x tail =>
        cases x with
        | error e2 =>
          simp [handleRTCPLoop, ReadStream.Read, hbad, hgood, hsend, World.warn]
        | ok d =>
          simp only [handleRTCPLoop, ReadStream.Read, hbad, hgood, hsend, World.warn]
    · simp only [hfull, if_false] at hsend ⊢
      cases later with
      | nil => simp only [handleRTCPLoop, ReadStream.Read, hbad, hgood, hsend, World.warn]
      | cons x tail =>
        cases x with
        | error e2 =>
          simp [handleRTCPLoop, ReadStream.Read, hbad, hgood, hsend, World.warn]
        | ok d =>
          simp only [handleRTCPLoop, ReadStream.Read, hbad, hgood, hsend, World.warn]
  · simp only [handleRTCPLoop, ReadStream.Read, hbad, World.warn]
  · by_cases hfull : c.buf.length < c.cap
    · simp only [hfull, if_true] at hsend ⊢
      simp only [handleRTCPLoop, ReadStream.Read, hbad, hgood, hsend, World.warn]
    · simp only [hfull, if_false] at hsend ⊢
      simp only [handleRTCPLoop, ReadStream.Read, hbad, hgood, hsend, World.warn]
  · by_cases hfull : c.buf.length < c.cap
    · simp only [hfull, if_true]
      exact Store.lookup_put w.rtcps ch c _ hl
    · simp only [hfull, if_false]
  · intro transport session hs hrs
    simp only [handleRTCP, hs, hrs]

/-- Witness for `C8`: a malformed datagram, then a well-formed one, then a read
error, on the empty queue of a freshly made sender; the decoded packet is in
the queue and the worker went on to the failing read. -/
theorem malformed_datagram_does_not_stop_feedback_witness :
    sampleUnmarshal [0] = Except.error { code := 5 } ∧
      sampleUnmarshal [201, 5] = Except.ok { kind := 201, body := [5] } ∧
      rawWorld.rtcps.lookup rawSender.Track.rtcpInput =
        some { buf := [], cap := 15, closed := false } ∧
      handleRTCPLoop sampleUnmarshal 3 rawWorld rawSender
          { pending := [Except.ok [0], Except.ok [201, 5], Except.error { code := 9 }] }
          rawSender.Track.rtcpInput =
        ({ rawWorld with
            rtcps := [{ buf := [{ kind := 201, body := [5] }], cap := 15, closed := false }],
            log := [LogLine.failedUnmarshal { code := 5 }, LogLine.failedRead { code := 9 } 7] },
          Exit.returned) :=
  ⟨rfl, rfl, rfl,
    (malformed_datagram_does_not_stop_feedback sampleUnmarshal 0 rawWorld rawSender
      rawSender.Track.rtcpInput { buf := [], cap := 15, closed := false }
      [0] [201, 5] { code := 5 } { kind := 201, body := [5] } [Except.error { code := 9 }]
      rfl rfl rfl rfl).1⟩

end Webrtc
